import Mathlib

/-!
Verification of the order-orchestration core of the repository: the storage
mutators of db.js, the verification-token store and verify routes of the web
server module, the site-type branches of processVerificationAction in
index.js, and the socket chat bridge handler.

Conventions of the embedding: a SQL table is a list of rows; an UPDATE with a
WHERE clause is a map that rewrites matching rows; Map.get / Map.delete on the
in-memory token map are a keyed lookup and a keyed removal on an association
list (newest binding first, matching Map.set overwrite-by-shadowing);
JavaScript awaits that can interleave are modelled, where a claim needs them,
by an explicit small-step schedule; a thrown JavaScript error is an
Except.error value and external Discord or socket calls are recorded as
explicit effect values, with fallible ones driven by an oracle record.
-/

namespace Waffle

/-- One transcript entry as stored in the orders.messages JSONB array
(author, content, timestamp). -/
structure Message where
  author : String
  content : String
  timestamp : String
deriving Repr, DecidableEq

/-- One row of the orders table (db.js createOrdersTable). -/
structure Order where
  id : String
  userId : String
  productId : String
  productName : String
  status : String
  createdAt : String
  receiptUrl : Option String
  ticketChannelId : Option String
  messages : List Message
deriving Repr, DecidableEq

/-- One row of the products table; stock = -1 denotes unlimited. -/
structure Product where
  id : String
  name : String
  price : Int
  description : String
  emoji : String
  stock : Int
deriving Repr, DecidableEq

/-- JavaScript truthiness of a nullable string column: null and the empty
string are falsy. -/
def jsTruthy : Option String → Bool
  | none => false
  | some s => !s.isEmpty

/-- db.js decreaseProductStock: UPDATE products SET stock = stock - 1
WHERE id matches AND stock > 0. -/
def decreaseProductStock (table : List Product) (productId : String) : List Product :=
  table.map fun p =>
    if p.id = productId ∧ p.stock > 0 then { p with stock := p.stock - 1 } else p

/-- Optional extra columns accepted by db.js updateOrderStatus. -/
structure ExtraData where
  receiptUrl : Option String := none
  ticketChannelId : Option String := none
deriving Repr, DecidableEq

/-- db.js updateOrderStatus: always writes the status column of the matching
row; writes receiptUrl only when extraData.receiptUrl is truthy and
ticketChannelId only when extraData.ticketChannelId is truthy; touches no
other column. -/
def updateOrderStatus (table : List Order) (orderId status : String)
    (extra : ExtraData) : List Order :=
  table.map fun o =>
    if o.id = orderId then
      { o with
        status := status
        receiptUrl := if jsTruthy extra.receiptUrl then extra.receiptUrl else o.receiptUrl
        ticketChannelId :=
          if jsTruthy extra.ticketChannelId then extra.ticketChannelId else o.ticketChannelId }
    else o

/-- db.js addMessageToOrder: UPDATE orders SET messages = messages || msg
WHERE id matches (JSONB array concatenation appends at the end). -/
def addMessageToOrder (table : List Order) (orderId : String) (m : Message) :
    List Order :=
  table.map fun o =>
    if o.id = orderId then { o with messages := o.messages ++ [m] } else o

/-- db.js getOrderById: SELECT * FROM orders WHERE id AND userId match,
first row or null. -/
def getOrderById (table : List Order) (orderId userId : String) : Option Order :=
  table.find? fun o => decide (o.id = orderId ∧ o.userId = userId)

/-- db.js getProductById: SELECT * FROM products WHERE id matches, first row
or null. -/
def getProductById (table : List Product) (productId : String) : Option Product :=
  table.find? fun p => decide (p.id = productId)

/-- db.js createOrder: INSERT INTO orders, one new row. -/
def createOrder (table : List Order) (o : Order) : List Order :=
  table ++ [o]

/-- Membership form of a getOrderById hit: the returned row is in the table
and matches both key columns. -/
theorem getOrderById_eq_some {table : List Order} {orderId userId : String}
    {o : Order} (h : getOrderById table orderId userId = some o) :
    o ∈ table ∧ o.id = orderId ∧ o.userId = userId := by
  refine ⟨List.mem_of_find?_eq_some h, ?_⟩
  have hp := List.find?_some h
  simpa using hp

/-- Sample product used by concrete witnesses. -/
def sampleProduct : Product :=
  { id := "P1", name := "Prod", price := 10, description := "d", emoji := "e", stock := 5 }

/-- Product with zero stock, used by the stock-guard witness. -/
def zeroStockProduct : Product :=
  { id := "P0", name := "Zero", price := 5, description := "d", emoji := "e", stock := 0 }

/-- C8: decreaseProductStock decrements stock by exactly one only when
stock > 0 and is a no-op otherwise; in particular stock 0 stays 0, the
unlimited marker -1 stays -1, and the decrement never drives a nonnegative
stock negative. All other columns of the row are untouched. -/
theorem decreaseProductStock_guarded (table : List Product) (productId : String)
    (p : Product) (hp : p ∈ table) :
    ∃ p' ∈ decreaseProductStock table productId,
      p'.id = p.id ∧ p'.name = p.name ∧ p'.price = p.price ∧
      p'.description = p.description ∧ p'.emoji = p.emoji ∧
      p'.stock = (if p.id = productId ∧ p.stock > 0 then p.stock - 1 else p.stock) ∧
      (p.stock = 0 → p'.stock = 0) ∧ (p.stock = -1 → p'.stock = -1) ∧
      (0 ≤ p.stock → 0 ≤ p'.stock) := by
  refine ⟨_, List.mem_map_of_mem _ hp, ?_⟩
  by_cases h : p.id = productId ∧ p.stock > 0
  · rw [if_pos h, if_pos h]
    exact ⟨rfl, rfl, rfl, rfl, rfl, rfl,
      fun hs => by have := h.2; show p.stock - 1 = 0; omega,
      fun hs => by have := h.2; show p.stock - 1 = -1; omega,
      fun hs => by have := h.2; show (0 : Int) ≤ p.stock - 1; omega⟩
  · rw [if_neg h, if_neg h]
    exact ⟨rfl, rfl, rfl, rfl, rfl, rfl, fun hs => hs, fun hs => hs, fun hs => hs⟩

/-- Witness for C8 at a concrete zero-stock product: the guarded decrement
leaves stock at 0. -/
theorem decreaseProductStock_guarded_witness :
    ∃ p' ∈ decreaseProductStock [zeroStockProduct] "P0",
      p'.id = zeroStockProduct.id ∧ p'.name = zeroStockProduct.name ∧
      p'.price = zeroStockProduct.price ∧
      p'.description = zeroStockProduct.description ∧
      p'.emoji = zeroStockProduct.emoji ∧
      p'.stock = (if zeroStockProduct.id = "P0" ∧ zeroStockProduct.stock > 0 then
        zeroStockProduct.stock - 1 else zeroStockProduct.stock) ∧
      (zeroStockProduct.stock = 0 → p'.stock = 0) ∧
      (zeroStockProduct.stock = -1 → p'.stock = -1) ∧
      (0 ≤ zeroStockProduct.stock → 0 ≤ p'.stock) :=
  decreaseProductStock_guarded [zeroStockProduct] "P0" zeroStockProduct
    (List.mem_singleton.mpr rfl)

/-- Fold of a sequence of addMessageToOrder calls over the orders table. -/
def applyAppends (table : List Order) (ops : List (String × Message)) : List Order :=
  ops.foldl (fun t op => addMessageToOrder t op.1 op.2) table

/-- Any single addMessageToOrder call sends each row either to itself or to
itself with the message appended at the end. -/
theorem addMessageToOrder_row (table : List Order) (orderId : String) (m : Message)
    (o : Order) (ho : o ∈ table) :
    ∃ o' ∈ addMessageToOrder table orderId m,
      o'.id = o.id ∧ o'.userId = o.userId ∧ o'.status = o.status ∧
      o'.ticketChannelId = o.ticketChannelId ∧
      o'.messages = o.messages ++ (if o.id = orderId then [m] else []) := by
  refine ⟨_, List.mem_map_of_mem _ ho, ?_⟩
  by_cases h : o.id = orderId
  · rw [if_pos h, if_pos h]
    exact ⟨rfl, rfl, rfl, rfl, rfl⟩
  · rw [if_neg h, if_neg h]
    exact ⟨rfl, rfl, rfl, rfl, by simp⟩

/-- Under any sequence of appends, each row keeps its identity and its old
messages as a prefix of the new ones. -/
theorem applyAppends_extends (ops : List (String × Message)) :
    ∀ (table : List Order) (o : Order), o ∈ table →
      ∃ o' ∈ applyAppends table ops,
        o'.id = o.id ∧ ∃ t, o'.messages = o.messages ++ t := by
  induction ops with
  | nil =>
      intro table o ho
      exact ⟨o, ho, rfl, [], by simp⟩
  | cons op ops ih =>
      intro table o ho
      obtain ⟨o1, ho1, hid1, hu1, hs1, hc1, hm1⟩ :=
        addMessageToOrder_row table op.1 op.2 o ho
      obtain ⟨o2, ho2, hid2, t, ht⟩ := ih (addMessageToOrder table op.1 op.2) o1 ho1
      refine ⟨o2, ?_, hid2.trans hid1, (if o.id = op.1 then [op.2] else []) ++ t, ?_⟩
      · simpa [applyAppends] using ho2
      · rw [ht, hm1, List.append_assoc]

/-- C9: addMessageToOrder is append-only. After one call the matching rows
carry the previous sequence with the new message appended at the end and every
other row is untouched, so every prior entry is preserved; and under any
sequence of such operations the old transcript stays a prefix and its length
never decreases. -/
theorem addMessageToOrder_append_only (table : List Order) (orderId : String)
    (m : Message) (o : Order) (ho : o ∈ table) :
    (∃ o' ∈ addMessageToOrder table orderId m,
      o'.id = o.id ∧ o'.userId = o.userId ∧
      o'.messages = o.messages ++ (if o.id = orderId then [m] else []) ∧
      o.messages.length ≤ o'.messages.length) ∧
    (∀ ops : List (String × Message),
      ∃ o' ∈ applyAppends table ops,
        o'.id = o.id ∧ (∃ t, o'.messages = o.messages ++ t) ∧
        o.messages.length ≤ o'.messages.length) := by
  constructor
  · obtain ⟨o', ho', hid, hu, _, _, hm⟩ := addMessageToOrder_row table orderId m o ho
    exact ⟨o', ho', hid, hu, hm, by rw [hm]; simp⟩
  · intro ops
    obtain ⟨o', ho', hid, t, ht⟩ := applyAppends_extends ops table o ho
    exact ⟨o', ho', hid, ⟨t, ht⟩, by rw [ht]; simp⟩

/-- Sample order used by concrete witnesses. -/
def sampleOrder : Order :=
  { id := "O1", userId := "U1", productId := "P1", productName := "Prod",
    status := "approved", createdAt := "t0", receiptUrl := none,
    ticketChannelId := some "chan1", messages := [] }

/-- Sample transcript message used by concrete witnesses. -/
def sampleMessage : Message :=
  { author := "user", content := "hello", timestamp := "t1" }

/-- Witness for C9 at a concrete order and message. -/
theorem addMessageToOrder_append_only_witness :
    (∃ o' ∈ addMessageToOrder [sampleOrder] "O1" sampleMessage,
      o'.id = sampleOrder.id ∧ o'.userId = sampleOrder.userId ∧
      o'.messages = sampleOrder.messages ++
        (if sampleOrder.id = "O1" then [sampleMessage] else []) ∧
      sampleOrder.messages.length ≤ o'.messages.length) ∧
    (∀ ops : List (String × Message),
      ∃ o' ∈ applyAppends [sampleOrder] ops,
        o'.id = sampleOrder.id ∧ (∃ t, o'.messages = sampleOrder.messages ++ t) ∧
        sampleOrder.messages.length ≤ o'.messages.length) :=
  addMessageToOrder_append_only [sampleOrder] "O1" sampleMessage sampleOrder
    (List.mem_singleton.mpr rfl)

/-- Row-level description of updateOrderStatus, shared by several proofs. -/
theorem updateOrderStatus_row (table : List Order) (orderId status : String)
    (extra : ExtraData) (o : Order) (ho : o ∈ table) :
    ∃ o' ∈ updateOrderStatus table orderId status extra,
      (o.id ≠ orderId → o' = o) ∧
      (o.id = orderId →
        o'.status = status ∧
        o'.id = o.id ∧ o'.userId = o.userId ∧ o'.productId = o.productId ∧
        o'.productName = o.productName ∧ o'.createdAt = o.createdAt ∧
        o'.messages = o.messages ∧
        o'.receiptUrl =
          (if jsTruthy extra.receiptUrl then extra.receiptUrl else o.receiptUrl) ∧
        o'.ticketChannelId =
          (if jsTruthy extra.ticketChannelId then extra.ticketChannelId
            else o.ticketChannelId)) := by
  refine ⟨_, List.mem_map_of_mem _ ho, ?_, ?_⟩
  · intro h
    rw [if_neg h]
  · intro h
    rw [if_pos h]
    exact ⟨rfl, rfl, rfl, rfl, rfl, rfl, rfl, rfl, rfl⟩

/-- C10: updateOrderStatus writes the status column of the matching row, writes
receiptUrl and ticketChannelId only when the corresponding extraData field is
provided and truthy, leaves id, userId, productId, productName, createdAt and
messages unchanged, and leaves non-matching rows entirely unchanged. -/
theorem updateOrderStatus_frame (table : List Order) (orderId status : String)
    (extra : ExtraData) (o : Order) (ho : o ∈ table) :
    ∃ o' ∈ updateOrderStatus table orderId status extra,
      (o.id ≠ orderId → o' = o) ∧
      (o.id = orderId →
        o'.status = status ∧
        o'.id = o.id ∧ o'.userId = o.userId ∧ o'.productId = o.productId ∧
        o'.productName = o.productName ∧ o'.createdAt = o.createdAt ∧
        o'.messages = o.messages ∧
        o'.receiptUrl =
          (if jsTruthy extra.receiptUrl then extra.receiptUrl else o.receiptUrl) ∧
        o'.ticketChannelId =
          (if jsTruthy extra.ticketChannelId then extra.ticketChannelId
            else o.ticketChannelId)) :=
  updateOrderStatus_row table orderId status extra o ho

/-- Witness for C10 at a concrete order with a truthy ticketChannelId update. -/
theorem updateOrderStatus_frame_witness :
    ∃ o' ∈ updateOrderStatus [sampleOrder] "O1" "entregue"
        { receiptUrl := none, ticketChannelId := some "chan2" },
      (sampleOrder.id ≠ "O1" → o' = sampleOrder) ∧
      (sampleOrder.id = "O1" →
        o'.status = "entregue" ∧
        o'.id = sampleOrder.id ∧ o'.userId = sampleOrder.userId ∧
        o'.productId = sampleOrder.productId ∧
        o'.productName = sampleOrder.productName ∧
        o'.createdAt = sampleOrder.createdAt ∧
        o'.messages = sampleOrder.messages ∧
        o'.receiptUrl = (if jsTruthy (none : Option String) then none
          else sampleOrder.receiptUrl) ∧
        o'.ticketChannelId = (if jsTruthy (some "chan2") then some "chan2"
          else sampleOrder.ticketChannelId)) :=
  updateOrderStatus_frame [sampleOrder] "O1" "entregue"
    { receiptUrl := none, ticketChannelId := some "chan2" } sampleOrder
    (List.mem_singleton.mpr rfl)

/-- Context record of a verification token, as assembled at the call sites of
sendProofForVerification and sendDeliveryNotification. -/
structure VerificationContext where
  type : String
  orderId : Option String := none
  channelId : Option String := none
  userId : Option String := none
  productId : Option String := none
  productName : Option String := none
deriving Repr, DecidableEq

/-- Shape of a value stored in the verificationTokens Map of the server module.
sendProofForVerification stores only details and context, so action is absent;
sendDeliveryNotification stores action deliver plus context and details. The
stored value has no expiresAt field. -/
structure TokenData where
  action : Option String := none
  context : VerificationContext
  details : List (String × String) := []
deriving Repr, DecidableEq

/-- The in-memory verificationTokens Map (newest binding first, so Map.set
shadows an older binding of the same key) together with the pending setTimeout
evictions scheduled by the two issuing functions, as pairs of token id and
absolute fire time in milliseconds. -/
structure TokenStore where
  tokens : List (String × TokenData)
  timers : List (String × Nat)
deriving Repr, DecidableEq

/-- The setTimeout delay used by both issuing functions: 3600000 ms, one hour. -/
def TOKEN_TTL_MS : Nat := 3600000

/-- Map.get on verificationTokens. -/
def verificationTokensGet (tokens : List (String × TokenData)) (vid : String) :
    Option TokenData :=
  (tokens.find? fun p => decide (p.1 = vid)).map Prod.snd

/-- Map.delete on verificationTokens. -/
def verificationTokensDelete (tokens : List (String × TokenData)) (vid : String) :
    List (String × TokenData) :=
  tokens.filter fun p => decide (¬p.1 = vid)

/-- index.js sendProofForVerification: stores the spread of verificationData,
which carries details and context and no action field, and schedules a
setTimeout deletion of the id after TOKEN_TTL_MS. -/
def sendProofForVerification (st : TokenStore) (now : Nat) (vid : String)
    (details : List (String × String)) (context : VerificationContext) : TokenStore :=
  { tokens := (vid, { action := none, context := context, details := details }) :: st.tokens
    timers := (vid, now + TOKEN_TTL_MS) :: st.timers }

/-- index.js sendDeliveryNotification: stores action deliver, the context and a
details record holding the product name, and schedules a setTimeout deletion of
the id after TOKEN_TTL_MS. -/
def sendDeliveryNotification (st : TokenStore) (now : Nat) (vid : String)
    (context : VerificationContext) : TokenStore :=
  { tokens := (vid,
      { action := some "deliver", context := context,
        details := [("productName", context.productName.getD "")] }) :: st.tokens
    timers := (vid, now + TOKEN_TTL_MS) :: st.timers }

/-- The setTimeout callback scheduled at issuance: verificationTokens.delete of
the issued id. -/
def evictionTimerFire (st : TokenStore) (vid : String) : TokenStore :=
  { tokens := verificationTokensDelete st.tokens vid
    timers := st.timers.filter fun p => decide (¬p.1 = vid) }

/-- Token resolution as performed by GET /verify/:verificationId and
POST /verify/action/:verificationId: a plain Map.get. The current time is
available to the handler but the body does not consult it. -/
def resolveVerificationToken (st : TokenStore) (vid : String) (_now : Nat) :
    Option TokenData :=
  verificationTokensGet st.tokens vid

/-- A deleted key no longer resolves through Map.get. -/
theorem verificationTokensGet_delete (tokens : List (String × TokenData))
    (vid : String) :
    verificationTokensGet (verificationTokensDelete tokens vid) vid = none := by
  unfold verificationTokensGet verificationTokensDelete
  induction tokens with
  | nil => rfl
  | cons p ps ih =>
      by_cases h : p.1 = vid
      · simp [List.filter_cons, h, ih]
      · simp [List.filter_cons, h, List.find?_cons, ih]

/-- Context value used in concrete token-store examples. -/
def siteContext : VerificationContext :=
  { type := "site", orderId := some "O1", userId := some "U1" }

/-- C3 counterexample: a token issued at time 0 whose eviction timer has not
fired is still resolvable at time TOKEN_TTL_MS, although its full TTL has
elapsed, so resolution does not treat an expired-but-not-yet-evicted entry as
absent. -/
theorem expired_token_still_resolves :
    ¬(∀ (st : TokenStore) (vid : String) (t0 now : Nat),
        (vid, t0 + TOKEN_TTL_MS) ∈ st.timers →
        t0 + TOKEN_TTL_MS ≤ now →
        resolveVerificationToken st vid now = none) := by
  intro h
  have hc := h (sendProofForVerification { tokens := [], timers := [] } 0 "tok" [] siteContext)
    "tok" 0 TOKEN_TTL_MS (by simp [sendProofForVerification]) (le_refl _)
  simp [resolveVerificationToken, verificationTokensGet, sendProofForVerification,
    List.find?_cons] at hc

/-- C3 (amended): the stored token value has no expiry field and resolution
never consults the clock — it returns the same answer at every time — so a
token stops resolving only when its eviction timer fires or it is explicitly
deleted; firing the eviction timer does make it unresolvable. -/
theorem resolveVerificationToken_time_independent (st : TokenStore) (vid : String)
    (now now2 : Nat) :
    resolveVerificationToken st vid now = resolveVerificationToken st vid now2 ∧
    resolveVerificationToken (evictionTimerFire st vid) vid now = none :=
  ⟨rfl, verificationTokensGet_delete st.tokens vid⟩

/-- Observable outcome of one POST /verify/action/:verificationId call: the
page rendered and the list of processVerificationAction invocations it made,
each with the final action and the token context it passed. -/
structure PostVerifyResult where
  rendered : String
  invoked : List (String × VerificationContext)
deriving Repr, DecidableEq

/-- The POST /verify/action/:verificationId handler of the server module, run
to completion in isolation. It reads the token with Map.get; on a miss it
renders the denied page and calls nothing; on a hit it calls
processVerificationAction with finalAction equal to the token action if
present, else the posted action, and only then deletes the token and renders
the result page. -/
def postVerifyAction (tokens : List (String × TokenData)) (vid action : String) :
    PostVerifyResult × List (String × TokenData) :=
  match verificationTokensGet tokens vid with
  | none =>
      ({ rendered := "Acesso negado. O link pode ter expirado.", invoked := [] }, tokens)
  | some tokenData =>
      ({ rendered := "action-result",
         invoked := [(tokenData.action.getD action, tokenData.context)] },
        verificationTokensDelete tokens vid)

/-- Program counter of one in-flight POST /verify/action request, split at the
atomic blocks of the handler body: 0 = about to run the Map.get together with
the null check; 1 = holding a token value, about to await
processVerificationAction; 2 = back from the await, about to run the
Map.delete and render; 3 = finished. -/
structure InflightPost where
  pc : Nat
  held : Option TokenData
deriving Repr, DecidableEq

/-- Shared state of two concurrent POSTs for the same verification id: the
token map and how many processVerificationAction invocations have happened. -/
structure VerifyRace where
  tokens : List (String × TokenData)
  r1 : InflightPost
  r2 : InflightPost
  invocations : Nat
deriving Repr, DecidableEq

/-- Advance one request by one atomic block, in the order the source executes
them: Map.get and null check, then the awaited processVerificationAction
invocation, then Map.delete. -/
def postAtomicStep (tokens : List (String × TokenData)) (vid : String)
    (r : InflightPost) : List (String × TokenData) × InflightPost × Nat :=
  match r.pc with
  | 0 =>
      match verificationTokensGet tokens vid with
      | none => (tokens, { pc := 3, held := none }, 0)
      | some td => (tokens, { pc := 1, held := some td }, 0)
  | 1 => (tokens, { r with pc := 2 }, 1)
  | 2 => (verificationTokensDelete tokens vid, { r with pc := 3 }, 0)
  | _ => (tokens, r, 0)

/-- Run one scheduler choice: true advances the first request, false the
second. -/
def raceStep (vid : String) (s : VerifyRace) (who : Bool) : VerifyRace :=
  if who then
    let out := postAtomicStep s.tokens vid s.r1
    { s with tokens := out.1, r1 := out.2.1, invocations := s.invocations + out.2.2 }
  else
    let out := postAtomicStep s.tokens vid s.r2
    { s with tokens := out.1, r2 := out.2.1, invocations := s.invocations + out.2.2 }

/-- Interleave two POSTs of the same verification id under a schedule. -/
def runRace (vid : String) (tokens : List (String × TokenData)) (sched : List Bool) :
    VerifyRace :=
  sched.foldl (raceStep vid)
    { tokens := tokens, r1 := { pc := 0, held := none },
      r2 := { pc := 0, held := none }, invocations := 0 }

/-- Token value used in concrete race examples. -/
def raceToken : TokenData :=
  { action := some "deliver", context := siteContext, details := [] }

/-- C1 counterexample: with the token present, the alternating schedule lets
both concurrent POSTs pass the Map.get before either deletes, so
processVerificationAction is invoked twice — the transition is not applied at
most once and the second resolution does not fail. -/
theorem concurrent_post_double_invocation :
    ¬(∀ (tokens : List (String × TokenData)) (vid : String) (td : TokenData)
        (sched : List Bool),
        verificationTokensGet tokens vid = some td →
        (runRace vid tokens sched).invocations ≤ 1) := by
  intro h
  have hc := h [("tok", raceToken)] "tok" raceToken
    [true, false, true, false, true, false] (by decide)
  revert hc
  decide

/-- C1 (amended): the handler resolves the token, invokes the transition for
the token action and context, and only afterwards deletes the token. A POST
that starts after a completed POST of the same id always renders the denied
page and invokes no transition, but the alternating concurrent schedule
invokes the transition twice. -/
theorem post_verify_sequential_single_use (tokens : List (String × TokenData))
    (vid a1 a2 : String) (td : TokenData)
    (h : verificationTokensGet tokens vid = some td) :
    (postVerifyAction tokens vid a1).1.invoked = [(td.action.getD a1, td.context)] ∧
    verificationTokensGet (postVerifyAction tokens vid a1).2 vid = none ∧
    (postVerifyAction (postVerifyAction tokens vid a1).2 vid a2).1.invoked = [] ∧
    (postVerifyAction (postVerifyAction tokens vid a1).2 vid a2).1.rendered =
      "Acesso negado. O link pode ter expirado." ∧
    2 ≤ (runRace vid tokens [true, false, true, false, true, false]).invocations := by
  have hdel : (postVerifyAction tokens vid a1).2 = verificationTokensDelete tokens vid := by
    simp [postVerifyAction, h]
  have hget : verificationTokensGet (postVerifyAction tokens vid a1).2 vid = none := by
    rw [hdel]; exact verificationTokensGet_delete tokens vid
  refine ⟨by simp [postVerifyAction, h], hget, ?_, ?_, ?_⟩
  · rw [hdel]; simp [postVerifyAction, verificationTokensGet_delete]
  · rw [hdel]; simp [postVerifyAction, verificationTokensGet_delete]
  · simp [runRace, raceStep, postAtomicStep, h, List.foldl]

/-- Witness for the amended C1 at a concrete one-token store. -/
theorem post_verify_sequential_single_use_witness :
    (postVerifyAction [("tok", raceToken)] "tok" "approve").1.invoked =
      [(raceToken.action.getD "approve", raceToken.context)] ∧
    verificationTokensGet (postVerifyAction [("tok", raceToken)] "tok" "approve").2
      "tok" = none ∧
    (postVerifyAction (postVerifyAction [("tok", raceToken)] "tok" "approve").2
      "tok" "approve").1.invoked = [] ∧
    (postVerifyAction (postVerifyAction [("tok", raceToken)] "tok" "approve").2
      "tok" "approve").1.rendered = "Acesso negado. O link pode ter expirado." ∧
    2 ≤ (runRace "tok" [("tok", raceToken)]
      [true, false, true, false, true, false]).invocations :=
  post_verify_sequential_single_use [("tok", raceToken)] "tok" "approve" "approve"
    raceToken (by decide)

/-- External side effects performed by the handlers beyond the orders table:
Discord channel operations, notifications, audit log lines, direct-message
attempts, web room emissions, deferred channel deletions and logged relay
failures. -/
inductive Effect
  | channelCreate (name topic : String)
  | channelSend (channelId content : String)
  | deliveryNotificationSent (context : VerificationContext)
  | auditLog (content : String)
  | dmSendAttempt (userId : String)
  | webBroadcast (room : String) (m : Message)
  | webBroadcastExceptSender (room : String) (m : Message)
  | scheduleChannelDelete (channelId : String) (delayMs : Nat)
  | relayErrorLogged (channelId : String)
deriving Repr, DecidableEq

/-- Outcomes of the fallible Discord calls that the site branches make. -/
structure DiscordOracle where
  createdChannelId : String := "created-channel"
  channelCreateOk : Bool := true
  userFetchOk : Bool := true
  channelFetchOk : Bool := true
deriving Repr, DecidableEq

/-- The success flag and human-readable summary returned by
processVerificationAction. -/
structure ActionResult where
  success : Bool
  message : String
deriving Repr, DecidableEq

/-- Normal return value or thrown JavaScript error of one call. -/
inductive CallOutcome
  | returned (value : ActionResult)
  | thrown (err : String)
deriving Repr, DecidableEq

/-- Result of one processVerificationAction call on a site-type context: the
returned value or a thrown JavaScript error, the orders table after the call
(database writes made before a throw persist), and the external effects in
the order they were performed. -/
structure SiteActionOutcome where
  outcome : CallOutcome
  orders : List Order
  effects : List Effect
deriving Repr, DecidableEq

/-- True when the call returned normally with success true. -/
def SiteActionOutcome.succeeded (r : SiteActionOutcome) : Bool :=
  match r.outcome with
  | CallOutcome.returned a => a.success
  | CallOutcome.thrown _ => false

/-- The system message appended by the deliver branch. -/
def deliveredSystemMessage (now : String) : Message :=
  { author := "system"
    content := "O pedido foi marcado como ENTREGUE pela administração e este chat foi finalizado."
    timestamp := now }

/-- Approve branch of processVerificationAction for a site context: fetch the
order, write status approved, then build the channel name from
targetOrder.productName — throwing when the fetch returned null — create the
chat channel, write status approved again binding ticketChannelId, send the
delivery notification, log and greet. No precondition on the current status
is checked anywhere in the branch. -/
def approveSiteBranch (oracle : DiscordOracle) (orders : List Order)
    (orderId userId : String) : SiteActionOutcome :=
  match getOrderById orders orderId userId with
  | none =>
      { outcome := CallOutcome.thrown "TypeError: Cannot read properties of null"
        orders := updateOrderStatus orders orderId "approved" {}, effects := [] }
  | some t =>
      if oracle.channelCreateOk then
        { outcome := CallOutcome.returned
            { success := true
              message := "Pedido do site " ++ orderId ++ " APROVADO. Canal de chat #" ++
                ("chat-" ++ t.productName.take 10 ++ "-" ++ userId.takeRight 4) ++
                " criado." }
          orders := updateOrderStatus (updateOrderStatus orders orderId "approved" {})
            orderId "approved"
            { receiptUrl := none, ticketChannelId := some oracle.createdChannelId }
          effects :=
            [Effect.channelCreate
               ("chat-" ++ t.productName.take 10 ++ "-" ++ userId.takeRight 4)
               ("Chat do Pedido do Site | OrderID: " ++ orderId ++ " | UserID: " ++ userId),
             Effect.deliveryNotificationSent
               { type := "site", orderId := some orderId, userId := some userId,
                 productName := some t.productName },
             Effect.auditLog ("SITE: Pedido " ++ orderId ++ " APROVADO via link."),
             Effect.channelSend oracle.createdChannelId
               ("Este é o chat para o seu pedido " ++ t.productName ++ ".")] }
      else
        { outcome := CallOutcome.thrown "channel create failed"
          orders := updateOrderStatus orders orderId "approved" {}, effects := [] }

/-- Reject branch of processVerificationAction for a site context: write
status declined and log; the user is notified on the site later. -/
def rejectSiteBranch (orders : List Order) (orderId : String) : SiteActionOutcome :=
  { outcome := CallOutcome.returned
      { success := true
        message := "Pedido do site " ++ orderId ++
          " RECUSADO. O usuário será notificado no site." }
    orders := updateOrderStatus orders orderId "declined" {}
    effects := [Effect.auditLog ("SITE: Pedido " ++ orderId ++ " RECUSADO via link.")] }

/-- Deliver branch of processVerificationAction for a site context: fetch the
order, returning a failure value when it is absent, otherwise write status
entregue, append the system message, attempt a best-effort direct message,
emit the system message to the order room, log, and schedule deletion of the
bound channel after 10000 ms when it can be fetched. -/
def deliverSiteBranch (oracle : DiscordOracle) (orders : List Order)
    (orderId userId : String) (now : String) : SiteActionOutcome :=
  match getOrderById orders orderId userId with
  | none =>
      { outcome := CallOutcome.returned
          { success := false
            message := "Pedido do site com ID " ++ orderId ++ " não encontrado." }
        orders := orders, effects := [] }
  | some targetOrder =>
      { outcome := CallOutcome.returned
          { success := true
            message := "Pedido do site " ++ orderId ++ " marcado como ENTREGUE." }
        orders := addMessageToOrder (updateOrderStatus orders orderId "entregue" {})
          orderId (deliveredSystemMessage now)
        effects :=
          (if oracle.userFetchOk then [Effect.dmSendAttempt userId] else []) ++
          [Effect.webBroadcast orderId (deliveredSystemMessage now),
           Effect.auditLog ("SITE: Pedido " ++ orderId ++
             " marcado como ENTREGUE via link.")] ++
          (if jsTruthy targetOrder.ticketChannelId ∧ oracle.channelFetchOk then
            [Effect.scheduleChannelDelete (targetOrder.ticketChannelId.getD "") 10000]
          else []) }

/-- index.js processVerificationAction restricted to site-type contexts, the
branches that read and write the orders table, dispatching on the action
string exactly as the source if-chain does and returning the unknown-action
failure value otherwise. -/
def processVerificationActionSite (oracle : DiscordOracle) (orders : List Order)
    (action : String) (context : VerificationContext) (now : String) :
    SiteActionOutcome :=
  if action = "approve" then
    approveSiteBranch oracle orders (context.orderId.getD "") (context.userId.getD "")
  else if action = "reject" then
    rejectSiteBranch orders (context.orderId.getD "")
  else if action = "deliver" then
    deliverSiteBranch oracle orders (context.orderId.getD "") (context.userId.getD "") now
  else
    { outcome := CallOutcome.returned { success := false, message := "Ação desconhecida." }
      orders := orders, effects := [] }

/-- Every row of updateOrderStatus output that matches the key carries the new
status. -/
theorem updateOrderStatus_sets_status (table : List Order) (orderId status : String)
    (extra : ExtraData) :
    ∀ o' ∈ updateOrderStatus table orderId status extra,
      o'.id = orderId → o'.status = status := by
  intro o' ho' hid
  unfold updateOrderStatus at ho'
  obtain ⟨o, ho, rfl⟩ := List.mem_map.mp ho'
  by_cases h : o.id = orderId
  · rw [if_pos h]
  · rw [if_neg h] at hid ⊢
    exact absurd hid h

/-- Rows of addMessageToOrder output keep the status of a source row with the
same id. -/
theorem addMessageToOrder_status (table : List Order) (orderId : String)
    (m : Message) :
    ∀ o' ∈ addMessageToOrder table orderId m,
      ∃ o ∈ table, o'.id = o.id ∧ o'.status = o.status := by
  intro o' ho'
  unfold addMessageToOrder at ho'
  obtain ⟨o, ho, rfl⟩ := List.mem_map.mp ho'
  by_cases h : o.id = orderId
  · rw [if_pos h]; exact ⟨o, ho, rfl, rfl⟩
  · rw [if_neg h]; exact ⟨o, ho, rfl, rfl⟩

/-- A site order with terminal status entregue, used as a concrete
counterexample input. -/
def entregueOrder : Order :=
  { id := "O1", userId := "U1", productId := "P1", productName := "Prod",
    status := "entregue", createdAt := "t0", receiptUrl := none,
    ticketChannelId := some "chan-old", messages := [] }

/-- C2 counterexample: approving a site order whose status is already the
terminal entregue is not rejected — at this concrete input the call reports
success and rewrites the status, so the table does not stay unchanged and no
InvalidTransition failure is produced. -/
theorem approve_on_entregue_not_rejected :
    ¬(∀ (oracle : DiscordOracle) (orders : List Order)
        (context : VerificationContext) (now : String) (o : Order),
        getOrderById orders (context.orderId.getD "") (context.userId.getD "") = some o →
        o.status = "entregue" →
        (processVerificationActionSite oracle orders "approve" context now).succeeded
            = false ∧
        (processVerificationActionSite oracle orders "approve" context now).orders
            = orders) := by
  intro h
  have hc := h {} [entregueOrder] siteContext "t1" entregueOrder (by decide) rfl
  revert hc
  decide

/-- C2 (amended): processVerificationAction checks no status precondition on
the approve path. For any existing site order — whatever its current status,
including the terminal entregue — approve reports success and rewrites the
row status to approved, provided only that the chat-channel creation call
succeeds. -/
theorem approve_ignores_current_status (oracle : DiscordOracle) (orders : List Order)
    (context : VerificationContext) (now : String) (o : Order)
    (hok : oracle.channelCreateOk = true)
    (ho : getOrderById orders (context.orderId.getD "") (context.userId.getD "")
      = some o) :
    (processVerificationActionSite oracle orders "approve" context now).succeeded
        = true ∧
    ∀ o' ∈ (processVerificationActionSite oracle orders "approve" context now).orders,
      o'.id = context.orderId.getD "" → o'.status = "approved" := by
  have hps : processVerificationActionSite oracle orders "approve" context now =
      approveSiteBranch oracle orders (context.orderId.getD "")
        (context.userId.getD "") := rfl
  rw [hps]
  simp only [approveSiteBranch, ho, hok, if_true]
  exact ⟨rfl, fun o' ho' hid => updateOrderStatus_sets_status _ _ "approved" _ o' ho' hid⟩

/-- Witness for the amended C2: approving the concrete entregue order reports
success and sets its status to approved. -/
theorem approve_ignores_current_status_witness :
    (processVerificationActionSite {} [entregueOrder] "approve" siteContext
      "t1").succeeded = true ∧
    ∀ o' ∈ (processVerificationActionSite {} [entregueOrder] "approve" siteContext
        "t1").orders,
      o'.id = siteContext.orderId.getD "" → o'.status = "approved" :=
  approve_ignores_current_status {} [entregueOrder] siteContext "t1" entregueOrder
    rfl (by decide)

/-- C6: resolving deliver on an existing site order returns success, sets the
order status to entregue, appends exactly one system-authored message at the
end of the transcript of that order, emits that message to the order web room,
attempts a best-effort direct message to the user when the user can be
fetched, schedules deletion of the bound chat channel after the fixed 10000 ms
grace delay when the channel is bound and fetchable, and every channel
deletion it requests is a scheduled one with that delay, never immediate. -/
theorem deliver_site_effects (oracle : DiscordOracle) (orders : List Order)
    (context : VerificationContext) (now : String) (o : Order)
    (ho : getOrderById orders (context.orderId.getD "") (context.userId.getD "")
      = some o) :
    (processVerificationActionSite oracle orders "deliver" context now).succeeded
        = true ∧
    (∀ o' ∈ (processVerificationActionSite oracle orders "deliver" context now).orders,
      o'.id = context.orderId.getD "" → o'.status = "entregue") ∧
    (∃ o' ∈ (processVerificationActionSite oracle orders "deliver" context now).orders,
      o'.id = o.id ∧ o'.userId = o.userId ∧ o'.status = "entregue" ∧
      o'.messages = o.messages ++ [deliveredSystemMessage now]) ∧
    Effect.webBroadcast (context.orderId.getD "") (deliveredSystemMessage now) ∈
      (processVerificationActionSite oracle orders "deliver" context now).effects ∧
    (oracle.userFetchOk = true →
      Effect.dmSendAttempt (context.userId.getD "") ∈
        (processVerificationActionSite oracle orders "deliver" context now).effects) ∧
    (jsTruthy o.ticketChannelId = true → oracle.channelFetchOk = true →
      Effect.scheduleChannelDelete (o.ticketChannelId.getD "") 10000 ∈
        (processVerificationActionSite oracle orders "deliver" context now).effects) ∧
    (∀ cid d, Effect.scheduleChannelDelete cid d ∈
        (processVerificationActionSite oracle orders "deliver" context now).effects →
      d = 10000) := by
  obtain ⟨hmem, hid, _⟩ := getOrderById_eq_some ho
  have hps : processVerificationActionSite oracle orders "deliver" context now =
      deliverSiteBranch oracle orders (context.orderId.getD "")
        (context.userId.getD "") now := rfl
  rw [hps]
  simp only [deliverSiteBranch, ho]
  refine ⟨rfl, ?_, ?_, ?_, ?_, ?_, ?_⟩
  · intro o' ho' hid'
    obtain ⟨o0, ho0, hid0, hst0⟩ := addMessageToOrder_status _ _ _ o' ho'
    rw [hst0]
    refine updateOrderStatus_sets_status _ _ "entregue" _ o0 ho0 ?_
    rw [← hid0]; exact hid'
  · obtain ⟨o1, ho1, _, himp⟩ :=
      updateOrderStatus_row orders (context.orderId.getD "") "entregue" {} o hmem
    obtain ⟨hst, hid1, huid1, _, _, _, hmsg1, _, _⟩ := himp hid
    obtain ⟨o2, ho2, hid2, huid2, hst2, _, hmsg2⟩ :=
      addMessageToOrder_row _ (context.orderId.getD "") (deliveredSystemMessage now)
        o1 ho1
    refine ⟨o2, ho2, hid2.trans hid1, huid2.trans huid1, hst2.trans hst, ?_⟩
    rw [hmsg2, hmsg1, if_pos (hid1.trans hid)]
  · simp [List.mem_append]
  · intro hu
    simp [List.mem_append, hu]
  · intro h1 h2
    simp [List.mem_append, h1, h2]
  · intro cid d hmem'
    rcases List.mem_append.mp hmem' with h12 | h3
    · rcases List.mem_append.mp h12 with h1 | h2
      · by_cases hu : oracle.userFetchOk = true <;> simp [hu] at h1
      · simp at h2
    · by_cases hc : jsTruthy o.ticketChannelId = true ∧ oracle.channelFetchOk = true
      · simp [hc] at h3
        exact h3.2
      · simp [hc] at h3

/-- Witness for C6 at a concrete approved order bound to a chat channel. -/
theorem deliver_site_effects_witness :
    (processVerificationActionSite {} [sampleOrder] "deliver" siteContext
      "t2").succeeded = true ∧
    (∀ o' ∈ (processVerificationActionSite {} [sampleOrder] "deliver" siteContext
        "t2").orders,
      o'.id = siteContext.orderId.getD "" → o'.status = "entregue") ∧
    (∃ o' ∈ (processVerificationActionSite {} [sampleOrder] "deliver" siteContext
        "t2").orders,
      o'.id = sampleOrder.id ∧ o'.userId = sampleOrder.userId ∧
      o'.status = "entregue" ∧
      o'.messages = sampleOrder.messages ++ [deliveredSystemMessage "t2"]) ∧
    Effect.webBroadcast (siteContext.orderId.getD "") (deliveredSystemMessage "t2") ∈
      (processVerificationActionSite {} [sampleOrder] "deliver" siteContext
        "t2").effects ∧
    (DiscordOracle.userFetchOk {} = true →
      Effect.dmSendAttempt (siteContext.userId.getD "") ∈
        (processVerificationActionSite {} [sampleOrder] "deliver" siteContext
          "t2").effects) ∧
    (jsTruthy sampleOrder.ticketChannelId = true →
      DiscordOracle.channelFetchOk {} = true →
      Effect.scheduleChannelDelete (sampleOrder.ticketChannelId.getD "") 10000 ∈
        (processVerificationActionSite {} [sampleOrder] "deliver" siteContext
          "t2").effects) ∧
    (∀ cid d, Effect.scheduleChannelDelete cid d ∈
        (processVerificationActionSite {} [sampleOrder] "deliver" siteContext
          "t2").effects →
      d = 10000) :=
  deliver_site_effects {} [sampleOrder] siteContext "t2" sampleOrder (by decide)

/-- Result of one chat_message_from_client socket event: the orders table
afterwards, the external effects in order, and the JavaScript error escaping
the handler if one was thrown. -/
structure ChatOutcome where
  orders : List Order
  effects : List Effect
  threw : Option String
deriving Repr, DecidableEq

/-- The user message the socket handler builds from the event payload. -/
def chatUserMessage (text now : String) : Message :=
  { author := "user", content := text, timestamp := now }

/-- The chat_message_from_client handler of the server module: it looks the
order up by the claimed orderId and userId, builds the user message, appends
it with addMessageToOrder and broadcasts it to the other room members — both
unconditionally, before the lookup result is ever inspected — and then, when
order.ticketChannelId is truthy, relays the text to the Discord channel inside
try/catch, logging a relay failure instead of failing. When the lookup
returned null, reading order.ticketChannelId throws, after the append and the
broadcast already happened. -/
def chatMessageFromClient (orders : List Order) (relayOk : Bool)
    (orderId userId username text now : String) : ChatOutcome :=
  match getOrderById orders orderId userId with
  | none =>
      { orders := addMessageToOrder orders orderId (chatUserMessage text now)
        effects := [Effect.webBroadcastExceptSender orderId (chatUserMessage text now)]
        threw := some "TypeError: Cannot read properties of null" }
  | some o =>
      if jsTruthy o.ticketChannelId then
        if relayOk then
          { orders := addMessageToOrder orders orderId (chatUserMessage text now)
            effects := [Effect.webBroadcastExceptSender orderId (chatUserMessage text now),
              Effect.channelSend (o.ticketChannelId.getD "")
                ("**[SITE] " ++ username ++ ":** " ++ text)]
            threw := none }
        else
          { orders := addMessageToOrder orders orderId (chatUserMessage text now)
            effects := [Effect.webBroadcastExceptSender orderId (chatUserMessage text now),
              Effect.relayErrorLogged (o.ticketChannelId.getD "")]
            threw := none }
      else
        { orders := addMessageToOrder orders orderId (chatUserMessage text now)
          effects := [Effect.webBroadcastExceptSender orderId (chatUserMessage text now)]
          threw := none }

/-- C4 counterexample: a message claiming an identity that does not own the
order is not rejected — at this concrete input the lookup fails yet the orders
table changes (the message lands in the transcript of the order of another
user) and a broadcast effect is performed. -/
theorem chat_no_ownership_check :
    ¬(∀ (orders : List Order) (relayOk : Bool)
        (orderId userId username text now : String),
        getOrderById orders orderId userId = none →
        (chatMessageFromClient orders relayOk orderId userId username text now).orders
            = orders ∧
        (chatMessageFromClient orders relayOk orderId userId username text now).effects
            = []) := by
  intro h
  have hc := h [sampleOrder] true "O1" "mallory" "Mallory" "hi" "t3" (by decide)
  revert hc
  decide

/-- C4 (amended): the handler performs the ownership lookup but never checks
its result. The user message is appended and broadcast regardless; when the
claimed identity does not own the order the handler merely throws afterwards,
reading ticketChannelId of null, with the append and the broadcast already
performed. -/
theorem chat_appends_despite_failed_lookup (orders : List Order) (relayOk : Bool)
    (orderId userId username text now : String)
    (h : getOrderById orders orderId userId = none) :
    (chatMessageFromClient orders relayOk orderId userId username text now).orders =
      addMessageToOrder orders orderId (chatUserMessage text now) ∧
    Effect.webBroadcastExceptSender orderId (chatUserMessage text now) ∈
      (chatMessageFromClient orders relayOk orderId userId username text now).effects ∧
    (chatMessageFromClient orders relayOk orderId userId username text now).threw =
      some "TypeError: Cannot read properties of null" := by
  simp [chatMessageFromClient, h]

/-- Witness for the amended C4 at the concrete non-owner input. -/
theorem chat_appends_despite_failed_lookup_witness :
    (chatMessageFromClient [sampleOrder] true "O1" "mallory" "Mallory" "hi"
      "t3").orders = addMessageToOrder [sampleOrder] "O1" (chatUserMessage "hi" "t3") ∧
    Effect.webBroadcastExceptSender "O1" (chatUserMessage "hi" "t3") ∈
      (chatMessageFromClient [sampleOrder] true "O1" "mallory" "Mallory" "hi"
        "t3").effects ∧
    (chatMessageFromClient [sampleOrder] true "O1" "mallory" "Mallory" "hi"
      "t3").threw = some "TypeError: Cannot read properties of null" :=
  chat_appends_despite_failed_lookup [sampleOrder] true "O1" "mallory" "Mallory"
    "hi" "t3" (by decide)

/-- C7: when the claimed user owns the order and the order is bound to a
channel, a failing relay to that channel is caught and logged and does not
undo or prevent anything: the transcript append happens, the broadcast to the
other room members happens, and no error escapes the handler. -/
theorem chat_relay_failure_isolated (orders : List Order)
    (orderId userId username text now : String) (o : Order)
    (ho : getOrderById orders orderId userId = some o)
    (hc : jsTruthy o.ticketChannelId = true) :
    (chatMessageFromClient orders false orderId userId username text now).orders =
      addMessageToOrder orders orderId (chatUserMessage text now) ∧
    Effect.webBroadcastExceptSender orderId (chatUserMessage text now) ∈
      (chatMessageFromClient orders false orderId userId username text now).effects ∧
    Effect.relayErrorLogged (o.ticketChannelId.getD "") ∈
      (chatMessageFromClient orders false orderId userId username text now).effects ∧
    (chatMessageFromClient orders false orderId userId username text now).threw
      = none := by
  simp [chatMessageFromClient, ho, hc]

/-- Witness for C7 at a concrete owned order with a bound channel and a
failing relay. -/
theorem chat_relay_failure_isolated_witness :
    (chatMessageFromClient [sampleOrder] false "O1" "U1" "User" "oi" "t4").orders =
      addMessageToOrder [sampleOrder] "O1" (chatUserMessage "oi" "t4") ∧
    Effect.webBroadcastExceptSender "O1" (chatUserMessage "oi" "t4") ∈
      (chatMessageFromClient [sampleOrder] false "O1" "U1" "User" "oi" "t4").effects ∧
    Effect.relayErrorLogged (sampleOrder.ticketChannelId.getD "") ∈
      (chatMessageFromClient [sampleOrder] false "O1" "U1" "User" "oi" "t4").effects ∧
    (chatMessageFromClient [sampleOrder] false "O1" "U1" "User" "oi" "t4").threw
      = none :=
  chat_relay_failure_isolated [sampleOrder] "O1" "U1" "User" "oi" "t4" sampleOrder
    (by decide) (by decide)

/-- HTTP response produced by a site route. -/
inductive RouteResult
  | redirect (location : String)
  | notFound (body : String)
  | render (view : String)
  | serverError (body : String)
deriving Repr, DecidableEq

/-- A thrown JavaScript error in the route model. -/
inductive JsError
  | referenceError (name : String)
deriving Repr, DecidableEq

/-- The Product-valued bindings visible in the scope chain of the
GET /order/create/:productId handler body at the point where newOrder is
built: its local productData is the only one. No binding named product exists
there or anywhere at module level of the server module, whose module-scope
names are the imports and the values app, server, io, port,
verificationTokens and upload, none of which is named product. -/
def orderCreateProductBindings (productData : Product) : List (String × Product) :=
  [("productData", productData)]

/-- JavaScript identifier resolution against the scope chain: reading an
unbound name throws a ReferenceError. -/
def readVarProduct (env : List (String × Product)) (name : String) :
    Except JsError Product :=
  match env.lookup name with
  | some v => Except.ok v
  | none => Except.error (JsError.referenceError name)

/-- Try-block of GET /order/create/:productId: fetch productData, answer 404
when it is absent, otherwise build newOrder — whose construction reads the
identifier product, which is not bound in scope — then persist it with
createOrder and render the awaiting-payment page. -/
def orderCreateTryBlock (products : List Product) (orders : List Order)
    (sessionUserId productId : String) (nowMs : Nat) :
    Except JsError (RouteResult × List Order) := do
  match getProductById products productId with
  | none => return (RouteResult.notFound "Produto não encontrado.", orders)
  | some productData =>
      let product ← readVarProduct (orderCreateProductBindings productData) "product"
      let newOrder : Order :=
        { id := "order-site-" ++ toString nowMs, userId := sessionUserId,
          productId := product.id, productName := product.name, status := "analise",
          createdAt := toString nowMs, receiptUrl := none, ticketChannelId := none,
          messages := [] }
      return (RouteResult.render "awaiting-payment", createOrder orders newOrder)

/-- GET /order/create/:productId: redirect to login when no session user
exists, otherwise run the try-block, turning a thrown error into the 500
response of the catch branch. The only throw site sits before the createOrder
call, so the table passed in is the table after a caught error. -/
def orderCreateRoute (loggedIn : Bool) (products : List Product)
    (orders : List Order) (sessionUserId productId : String) (nowMs : Nat) :
    RouteResult × List Order :=
  if loggedIn then
    match orderCreateTryBlock products orders sessionUserId productId nowMs with
    | Except.ok r => r
    | Except.error _ =>
        (RouteResult.serverError "Erro ao iniciar o processo de compra.", orders)
  else (RouteResult.redirect "/login", orders)

/-- C5: for every logged-in request with an existing product, the handler
throws reading the unbound identifier product before createOrder can run, so
the route answers with the 500 branch and the orders table is unchanged — no
order is ever persisted through this route. -/
theorem orderCreateRoute_always_500 (products : List Product) (orders : List Order)
    (sessionUserId productId : String) (nowMs : Nat) (p : Product)
    (hp : getProductById products productId = some p) :
    orderCreateRoute true products orders sessionUserId productId nowMs =
      (RouteResult.serverError "Erro ao iniciar o processo de compra.", orders) := by
  unfold orderCreateRoute orderCreateTryBlock
  rw [hp]
  rfl

/-- Witness for C5 at a concrete product catalog. -/
theorem orderCreateRoute_always_500_witness :
    orderCreateRoute true [sampleProduct] [] "U1" "P1" 0 =
      (RouteResult.serverError "Erro ao iniciar o processo de compra.", []) :=
  orderCreateRoute_always_500 [sampleProduct] [] "U1" "P1" 0 sampleProduct
    (by decide)

end Waffle
